import Mathlib

/-!
Shallow embedding of the Met Office Alexa skill handler (`src/index.js`),
the dialog-turn resolver for the umbrella-decision skill.

Modelling conventions:
* Alexa slots can be missing, or present with an empty value; both are
  falsy in the JavaScript guards.  A slot is `Option String`, where
  `none` is an absent slot and `some ""` a present slot with empty value.
* The mutable `session.attributes` bag becomes an explicit `SessionState`
  value threaded in and out of every handler.
* A handler's effect on the `response` object becomes an `Outcome`:
  `ask` is `response.ask` (non-terminal, `shouldEndSession = false`),
  `tell` is `response.tellWithCard` (terminal, `shouldEndSession = true`),
  and `crash` is an uncaught JavaScript fault escaping the handler.
* The external Met Office Data Point call (`makeDataPointRequest`, whose
  body in the source is only a placeholder comment) is abstracted as a
  parameter `svc : Except Unit Rat`: either a service failure or a
  precipitation probability handed to the callback.
* JavaScript numbers on this path are modelled as `Rat`; every comparison
  the program performs (`rainProb > 0.5`) is exact in both semantics.
-/

/-- A JavaScript runtime fault escaping a handler: reading an undeclared
identifier, or reading a property of `undefined`.  The string carries the
identifier or property name involved. -/
inductive JsError where
  | referenceError (n : String) : JsError
  | typeError (n : String) : JsError
deriving DecidableEq

/-- Result record of `getDateFromIntent` (index.js:310-338). -/
structure DateResult where
  displayDate : String
  requestDateParam : String
deriving DecidableEq

/-- The per-conversation `session.attributes` bag: optional stored city and
date (index.js:153,157,181,185). -/
structure SessionState where
  city : Option String
  date : Option DateResult
deriving DecidableEq

/-- The slots of one intent request.  `City` and `Date` are the slots the
dialog dispatch inspects (index.js:93-94); `location` is the lowercase slot
`getLocationFromIntent` reads (index.js:295).  `none` = slot absent,
`some ""` = slot present with empty value. -/
structure Slots where
  City : Option String
  Date : Option String
  location : Option String
deriving DecidableEq

/-- What one turn does to the response object: an uncaught fault, a
non-terminal `response.ask` (speech, reprompt), or a terminal
`response.tellWithCard` speech.  Each directive carries the session
attributes as they stand when the response is issued. -/
inductive Outcome where
  | crash (e : JsError) : Outcome
  | ask (speech reprompt : String) (session : SessionState) : Outcome
  | tell (speech : String) (session : SessionState) : Outcome
deriving DecidableEq

/-- Terminal-directive test: `shouldEndSession = true` holds exactly for
`tell` outcomes. -/
def Outcome.isTell : Outcome → Bool
  | .tell _ _ => true
  | _ => false

/-- Session attributes carried by the outcome, when a directive was issued. -/
def Outcome.sessionOf : Outcome → Option SessionState
  | .crash _ => none
  | .ask _ _ s => some s
  | .tell _ s => some s

/-- JavaScript truthiness of `slot && slot.value`: false when the slot is
missing and when its value is the empty string. -/
def hasValue : Option String → Bool
  | none => false
  | some s => !(s == "")

/-- Reading the `error` property of a string value: a string has no such
property, the access yields `undefined`, which is falsy.  (Reading `error`
on `undefined` itself is instead a `TypeError`; see the handlers.) -/
def stringDotError (_ : String) : Bool := false

/-- Translation of `getLocationFromIntent` (index.js:293-304): read the
lowercase `location` slot; when it is missing or has an empty value the
function body falls through its empty branch and returns `undefined`
(`none`); otherwise it returns the raw slot string unvalidated. -/
def getLocationFromIntent (intent : Slots) : Option String :=
  match intent.location with
  | none => none
  | some v => if v == "" then none else some v

/-- Zero-padding from index.js:326-329: `month < 10 ? "0" + month : month`. -/
def pad2 (n : Nat) : String :=
  if n < 10 then "0" ++ toString n else toString n

/-- Split a character list at each dash, for the ISO date form. -/
def splitDashAux : List Char → List Char → List (List Char)
  | [], acc => [acc.reverse]
  | c :: rest, acc =>
      if c == '-' then acc.reverse :: splitDashAux rest []
      else splitDashAux rest (c :: acc)

/-- Numeric value of an all-digit character list, `none` otherwise. -/
def digitsVal : List Char → Option Nat
  | cs =>
      if cs.all Char.isDigit then
        some (cs.foldl (fun a c => a * 10 + (c.toNat - 48)) 0)
      else none

/-- Model of `new Date(value)` (index.js:323) restricted to the ECMAScript
date-time string format's date-only form `YYYY-MM-DD`: `some (y, m, d)`
with a 1-based month on success, `none` for an Invalid Date (the NaN time
value).  Implementation-specific fallback formats of JavaScript engines are
outside this model. -/
def jsParseDate (s : String) : Option (Nat × Nat × Nat) :=
  match splitDashAux s.toList [] with
  | [ys, ms, ds] =>
      if ys.length == 4 && ms.length == 2 && ds.length == 2 then
        match digitsVal ys, digitsVal ms, digitsVal ds with
        | some y, some m, some d =>
            if 1 ≤ m && m ≤ 12 && 1 ≤ d && d ≤ 31 then some (y, m, d)
            else none
        | _, _, _ => none
      else none
  | _ => none

/-- Modelled from the spec: `alexaDateUtil.getFormattedDate` is required at
index.js:41 but `alexaDateUtil.js` is missing from src.  Only its role as a
display string for a parsed date matters to the claims; an Invalid Date
formats to a junk-but-truthy string, never a crash. -/
def getFormattedDate : Option (Nat × Nat × Nat) → String
  | some (y, m, d) => toString y ++ "-" ++ toString m ++ "-" ++ toString d
  | none => "Invalid Date"

/-- The request-query fragment built at index.js:325-331.  On an Invalid
Date, `getFullYear`, `getMonth() + 1` and `getDate` are all NaN, NaN fails
the `< 10` padding test, and string concatenation prints each as `NaN`. -/
def requestDay : Option (Nat × Nat × Nat) → String
  | some (y, m, d) => "begin_date=" ++ toString y ++ pad2 m ++ pad2 d ++ "&range=24"
  | none => "begin_date=NaNNaNNaN&range=24"

/-- The record returned for a present, non-empty date slot value. -/
def dateResultOf (v : String) : DateResult :=
  { displayDate := getFormattedDate (jsParseDate v)
    requestDateParam := requestDay (jsParseDate v) }

/-- The default record for a missing or empty date slot (index.js:316-320). -/
def todayDateResult : DateResult :=
  { displayDate := "Today", requestDateParam := "date=today" }

/-- Translation of `getDateFromIntent` (index.js:310-338).  Note that BOTH
branches return a record — a JavaScript object, always truthy — so the
function never yields a falsy value, not even for an unparseable string. -/
def getDateFromIntent (intent : Slots) : Option DateResult :=
  match intent.Date with
  | none => some todayDateResult
  | some v => if v == "" then some todayDateResult else some (dateResultOf v)

/-- Translation of `getUmbrellaDecisionResponse` (index.js:251-260). -/
def getUmbrellaDecisionResponse (rainProb : Rat) : String :=
  if rainProb > 0.5 then "Take an umbrella" else "Don\x27t take an umbrella"

/-- Translation of `getFinalUmbrellaResponse` (index.js:266-280), with the
Data Point callback's input abstracted as `svc` (the body of
`makeDataPointRequest`, index.js:286-288, is only a placeholder comment, so
the external call is modelled from the spec as failure-or-probability). -/
def getFinalUmbrellaResponse (svc : Except Unit Rat) (location : String)
    (session : SessionState) : Outcome :=
  match svc with
  | .error _ =>
      .tell "Sorry, the Met Office Data Point is experiencing a problem. Please try again later"
        session
  | .ok p => .tell (getUmbrellaDecisionResponse p) session

/-- Modelled from the spec: `getFinalTideResponse` is called at
index.js:154 and index.js:182 but defined nowhere in src.  Per spec section
4.1 the success path combines city and date and produces the terminal
weather answer, and per section 7 an external-service failure produces an
apologetic terminal directive; either way the directive is terminal. -/
def getFinalTideResponse (svc : Except Unit Rat) (city : String)
    (d : DateResult) (session : SessionState) : Outcome :=
  match svc with
  | .error _ =>
      .tell "Sorry, the Met Office Data Point is experiencing a problem. Please try again later"
        session
  | .ok p => .tell (getUmbrellaDecisionResponse p) session

/-- Translation of `handleOneshotUmbrellaRequest` (index.js:218-249).
`location.error` on the `undefined` return of `getLocationFromIntent` is a
`TypeError`; on a raw string it is `undefined`, falsy, so the error branch
is skipped and control reaches the final request. -/
def handleOneshotUmbrellaRequest (svc : Except Unit Rat) (intent : Slots)
    (session : SessionState) : Outcome :=
  match getLocationFromIntent intent with
  | none => .crash (.typeError "error")
  | some location =>
      if stringDotError location then
        .ask ("Currently, I can only help you with cities in the UK" ++
              "Which city would you like tide information for?")
            ("Currently, I can only help you with cities in the UK" ++
              "Which city would you like tide information for?")
            session
      else
        getFinalUmbrellaResponse svc location session

/-- Translation of `handleCityDialogRequest` (index.js:140-163).  The error
branch, were it ever taken, evaluates `getAllStationsText()` — an
identifier defined nowhere in src — and would itself throw a
`ReferenceError`. -/
def handleCityDialogRequest (svc : Except Unit Rat) (intent : Slots)
    (session : SessionState) : Outcome :=
  match getLocationFromIntent intent with
  | none => .crash (.typeError "error")
  | some cityStation =>
      if stringDotError cityStation then
        .crash (.referenceError "getAllStationsText")
      else
        match session.date with
        | some d => getFinalTideResponse svc cityStation d session
        | none =>
            .ask "For which date?"
              ("For which date would you like tide information for " ++ cityStation ++ "?")
              { session with city := some cityStation }

/-- The date re-prompt of `handleDateDialogRequest` (index.js:172-173). -/
def dateReprompt : String :=
  "Please try again saying a day of the week, for example, Saturday. " ++
    "For which date would you like tide information?"

/-- Translation of `handleDateDialogRequest` (index.js:168-191). -/
def handleDateDialogRequest (svc : Except Unit Rat) (intent : Slots)
    (session : SessionState) : Outcome :=
  match getDateFromIntent intent with
  | none =>
      .ask ("I\x27m sorry, I didn\x27t understand that date. " ++ dateReprompt)
        dateReprompt session
  | some date =>
      match session.city with
      | some c => getFinalTideResponse svc c date session
      | none =>
          .ask ("For which city would you like tide information for " ++
                date.displayDate ++ "?")
            "For which city?"
            { session with date := some date }

/-- Modelled from the spec: `handleSupportedCitiesRequest` is referenced at
index.js:105 and index.js:209 but defined nowhere in src.  Spec section 4.1
says the no-slot branch without a stored city re-prompts for a city via a
supported-cities listing, continuing the session unchanged. -/
def handleSupportedCitiesRequest (_ : Slots) (session : SessionState) : Outcome :=
  .ask "Which city would you like tide information for?"
    "Which city would you like tide information for?" session

/-- Translation of `handleNoSlotDialogRequest` (index.js:200-211). -/
def handleNoSlotDialogRequest (intent : Slots) (session : SessionState) : Outcome :=
  match session.city with
  | some _ =>
      .ask "Please try again saying a day of the week, for example, Saturday. "
        "Please try again saying a day of the week, for example, Saturday. "
        session
  | none => handleSupportedCitiesRequest intent session

/-- Translation of the `DialogUmbrellaIntent` dispatch (index.js:90-102):
city slot first, then date slot, then the no-slot fallback. -/
def DialogUmbrellaIntent (svc : Except Unit Rat) (intent : Slots)
    (session : SessionState) : Outcome :=
  if hasValue intent.City then handleCityDialogRequest svc intent session
  else if hasValue intent.Date then handleDateDialogRequest svc intent session
  else handleNoSlotDialogRequest intent session

/-- Identifiers declared at module scope of index.js: the `var`
declarations (index.js:38-46,54) and the hoisted function declarations.
`whichCityPrompt` and `inputPromt` are not among them. -/
def moduleDeclaredNames : List String :=
  ["APP_ID", "http", "alexaDateUtil", "AlexaSkill", "MODecide",
   "handleWelcomeRequest", "handleHelpRequest", "handleCityDialogRequest",
   "handleDateDialogRequest", "handleNoSlotDialogRequest",
   "handleOneshotUmbrellaRequest", "getUmbrellaDecisionResponse",
   "getFinalUmbrellaResponse", "makeDataPointRequest",
   "getLocationFromIntent", "getDateFromIntent"]

/-- Reading an identifier at module scope: an undeclared identifier throws
a `ReferenceError`.  The string value returned for a declared identifier is
immaterial to the claims, only definedness is modelled. -/
def readGlobal (n : String) : Except JsError String :=
  if n ∈ moduleDeclaredNames then Except.ok "" else Except.error (.referenceError n)

/-- Translation of `handleWelcomeRequest` (index.js:115-124).  The result
is the `(speech, reprompt)` pair passed to `response.ask`, or the fault
thrown while building it.  `speechOutput` reads the identifier
`whichCityPrompt` and `repromptText` reads `inputPromt`; neither is ever
declared (the local is spelled `inputPrompt`). -/
def handleWelcomeRequest : Except JsError (String × String) := do
  let _inputPrompt := "How can we help you?"
  let w ← readGlobal "whichCityPrompt"
  let speechOutput := "Welcome to The Met Office. " ++ w
  let p ← readGlobal "inputPromt"
  let repromptText :=
    "We can help you make decisions based on our  " ++
      "world leading weather forecasts. " ++
      "For instance, you can find out if you\x27ll need an umbrella." ++ p
  return (speechOutput, repromptText)

/-! Helper lemmas shared by the claim theorems. -/

lemma getLocation_none_iff (i : Slots) :
    getLocationFromIntent i = none ↔ hasValue i.location = false := by
  rcases i with ⟨C, D, L⟩
  cases L with
  | none => simp [getLocationFromIntent, hasValue]
  | some v => by_cases h : v == "" <;> simp_all [getLocationFromIntent, hasValue]

lemma getLocation_of_hasValue (i : Slots) (h : hasValue i.location = true) :
    getLocationFromIntent i = i.location := by
  rcases i with ⟨C, D, L⟩
  cases L with
  | none => simp [hasValue] at h
  | some v =>
      simp [hasValue] at h
      simp [getLocationFromIntent, h]

lemma getDate_always_some (i : Slots) : (getDateFromIntent i).isSome = true := by
  rcases i with ⟨C, D, L⟩
  cases D with
  | none => rfl
  | some v => by_cases h : v == "" <;> simp [getDateFromIntent, h]

lemma getDate_of_hasValue (i : Slots) (v : String) (hv : i.Date = some v)
    (h : hasValue i.Date = true) :
    getDateFromIntent i = some (dateResultOf v) := by
  rcases i with ⟨C, D, L⟩
  simp at hv
  subst hv
  simp [hasValue] at h
  simp [getDateFromIntent, h]

lemma getFinalTide_isTell (svc : Except Unit Rat) (c : String) (d : DateResult)
    (s : SessionState) : (getFinalTideResponse svc c d s).isTell = true := by
  cases svc <;> rfl

/-- C2: the umbrella decision is a threshold comparison on the
precipitation probability: the decision text is "Take an umbrella" exactly
when rainProb is strictly greater than 0.5 on the 0-1 scale, and
"Don\x27t take an umbrella" otherwise; 0.6 yields Take, 0.4 yields the
negative text, and the boundary 0.5 yields the negative text. -/
theorem umbrella_decision_threshold :
    (∀ p : Rat, getUmbrellaDecisionResponse p = "Take an umbrella" ↔ (0.5 : Rat) < p) ∧
    (∀ p : Rat, getUmbrellaDecisionResponse p = "Don\x27t take an umbrella" ↔ ¬ (0.5 : Rat) < p) ∧
    getUmbrellaDecisionResponse 0.6 = "Take an umbrella" ∧
    getUmbrellaDecisionResponse 0.4 = "Don\x27t take an umbrella" ∧
    getUmbrellaDecisionResponse 0.5 = "Don\x27t take an umbrella" := by
  refine ⟨fun p => ?_, fun p => ?_, ?_, ?_, ?_⟩
  · rw [getUmbrellaDecisionResponse]; split <;> simp_all
  · rw [getUmbrellaDecisionResponse]; split <;> simp_all
  · rw [getUmbrellaDecisionResponse, if_pos (by norm_num)]
  · rw [getUmbrellaDecisionResponse, if_neg (by norm_num)]
  · rw [getUmbrellaDecisionResponse, if_neg (by norm_num)]

/-- C6: date resolution turns "2015-06-20" into the request fragment
"begin_date=20150620&range=24" (8-digit zero-padded YYYYMMDD plus the fixed
24-hour range), and an absent or empty date slot defaults to today with
display text "Today". -/
theorem date_formatting_values :
    (getDateFromIntent ⟨none, some "2015-06-20", none⟩).map DateResult.requestDateParam =
      some "begin_date=20150620&range=24" ∧
    (getDateFromIntent ⟨none, none, none⟩).map DateResult.displayDate = some "Today" ∧
    (getDateFromIntent ⟨none, some "", none⟩).map DateResult.displayDate = some "Today" := by
  exact ⟨by decide, by decide, by decide⟩

/-- C9: the welcome handler reads the never-declared identifier
whichCityPrompt (and would next read the equally undeclared inputPromt), so
it throws a ReferenceError before any directive is built: no welcome speech
is ever returned and the fault escapes to the host. -/
theorem welcome_reference_error :
    handleWelcomeRequest = Except.error (JsError.referenceError "whichCityPrompt") := rfl

/-- C8: the dialog dispatch inspects the City slot value first and then the
Date slot value, in that priority order: a non-empty City value selects the
city branch regardless of the Date slot, otherwise a non-empty Date value
selects the date branch, and otherwise the no-slot branch runs. -/
theorem dialog_slot_priority :
    ∀ (svc : Except Unit Rat) (intent : Slots) (session : SessionState),
      (hasValue intent.City = true →
        DialogUmbrellaIntent svc intent session = handleCityDialogRequest svc intent session) ∧
      (hasValue intent.City = false → hasValue intent.Date = true →
        DialogUmbrellaIntent svc intent session = handleDateDialogRequest svc intent session) ∧
      (hasValue intent.City = false → hasValue intent.Date = false →
        DialogUmbrellaIntent svc intent session = handleNoSlotDialogRequest intent session) := by
  intro svc intent session
  refine ⟨fun h1 => ?_, fun h1 h2 => ?_, fun h1 h2 => ?_⟩ <;>
    simp [DialogUmbrellaIntent, *]

/-- C8 witness: concrete turns exercising each branch of the priority
order, including a turn where both City and Date carry values and the city
branch wins. -/
theorem dialog_slot_priority_witness :
    DialogUmbrellaIntent (Except.error ()) ⟨some "Seattle", some "2015-06-20", none⟩ ⟨none, none⟩ =
      handleCityDialogRequest (Except.error ()) ⟨some "Seattle", some "2015-06-20", none⟩
        ⟨none, none⟩ ∧
    DialogUmbrellaIntent (Except.error ()) ⟨none, some "2015-06-20", none⟩ ⟨none, none⟩ =
      handleDateDialogRequest (Except.error ()) ⟨none, some "2015-06-20", none⟩ ⟨none, none⟩ ∧
    DialogUmbrellaIntent (Except.error ()) ⟨none, none, none⟩ ⟨none, none⟩ =
      handleNoSlotDialogRequest ⟨none, none, none⟩ ⟨none, none⟩ :=
  ⟨(dialog_slot_priority (Except.error ()) ⟨some "Seattle", some "2015-06-20", none⟩
      ⟨none, none⟩).1 (by decide),
   (dialog_slot_priority (Except.error ()) ⟨none, some "2015-06-20", none⟩
      ⟨none, none⟩).2.1 (by decide) (by decide),
   (dialog_slot_priority (Except.error ()) ⟨none, none, none⟩
      ⟨none, none⟩).2.2 (by decide) (by decide)⟩

/-- C10: getLocationFromIntent reads the lowercase location slot and
returns either the raw slot string or undefined, never a record with an
error marker.  Hence when the location slot has a non-empty value the
callers\x27 error check is falsy and both callers proceed past it (no
resolution failure is ever detected), and when the location slot is absent
or empty — including dialog turns dispatched on a filled City slot — the
error-property read on undefined throws a TypeError. -/
theorem location_slot_and_error_check :
    ∀ (svc : Except Unit Rat) (intent : Slots) (session : SessionState),
      (hasValue intent.location = true →
        getLocationFromIntent intent = intent.location ∧
        handleOneshotUmbrellaRequest svc intent session =
          getFinalUmbrellaResponse svc (intent.location.getD "") session ∧
        (∀ d, session.date = some d →
          handleCityDialogRequest svc intent session =
            getFinalTideResponse svc (intent.location.getD "") d session) ∧
        (session.date = none →
          handleCityDialogRequest svc intent session =
            Outcome.ask "For which date?"
              ("For which date would you like tide information for " ++
                intent.location.getD "" ++ "?")
              { session with city := intent.location })) ∧
      (hasValue intent.location = false →
        getLocationFromIntent intent = none ∧
        handleOneshotUmbrellaRequest svc intent session =
          Outcome.crash (JsError.typeError "error") ∧
        handleCityDialogRequest svc intent session =
          Outcome.crash (JsError.typeError "error")) ∧
      (hasValue intent.City = true → hasValue intent.location = false →
        DialogUmbrellaIntent svc intent session =
          Outcome.crash (JsError.typeError "error")) := by
  intro svc intent session
  refine ⟨fun h => ?_, fun h => ?_, fun hc h => ?_⟩
  · have hl := getLocation_of_hasValue intent h
    rcases intent with ⟨C, D, L⟩
    cases L with
    | none => simp [hasValue] at h
    | some v =>
        refine ⟨hl, ?_, fun d hd => ?_, fun hd => ?_⟩ <;>
          simp_all [handleOneshotUmbrellaRequest, handleCityDialogRequest, stringDotError]
  · have hl := (getLocation_none_iff intent).mpr h
    exact ⟨hl, by simp [handleOneshotUmbrellaRequest, hl],
      by simp [handleCityDialogRequest, hl]⟩
  · have hl := (getLocation_none_iff intent).mpr h
    simp [DialogUmbrellaIntent, hc, handleCityDialogRequest, hl]

/-- C10 witness: a one-shot turn with location value "Exeter" proceeds to
the final request, and with the location slot absent both the one-shot
handler and a City-dispatched dialog turn crash with a TypeError. -/
theorem location_slot_and_error_check_witness :
    getLocationFromIntent ⟨none, none, some "Exeter"⟩ = some "Exeter" ∧
    handleOneshotUmbrellaRequest (Except.error ()) ⟨none, none, some "Exeter"⟩ ⟨none, none⟩ =
      getFinalUmbrellaResponse (Except.error ()) "Exeter" ⟨none, none⟩ ∧
    handleOneshotUmbrellaRequest (Except.error ()) ⟨none, none, none⟩ ⟨none, none⟩ =
      Outcome.crash (JsError.typeError "error") ∧
    DialogUmbrellaIntent (Except.error ()) ⟨some "Seattle", none, none⟩ ⟨none, none⟩ =
      Outcome.crash (JsError.typeError "error") :=
  ⟨((location_slot_and_error_check (Except.error ()) ⟨none, none, some "Exeter"⟩
      ⟨none, none⟩).1 (by decide)).1,
   ((location_slot_and_error_check (Except.error ()) ⟨none, none, some "Exeter"⟩
      ⟨none, none⟩).1 (by decide)).2.1,
   ((location_slot_and_error_check (Except.error ()) ⟨none, none, none⟩
      ⟨none, none⟩).2.1 (by decide)).2.1,
   (location_slot_and_error_check (Except.error ()) ⟨some "Seattle", none, none⟩
      ⟨none, none⟩).2.2 (by decide) (by decide)⟩

/-- C4: whenever the session already holds a stored city, a dialog turn
that supplies a parseable date value (and no city value, so the date branch
runs) issues the terminal directive: shouldEndSession is true and no
further turn is needed. -/
theorem stored_city_valid_date_terminal :
    ∀ (svc : Except Unit Rat) (intent : Slots) (session : SessionState)
      (c : String) (ymd : Nat × Nat × Nat),
      session.city = some c →
      hasValue intent.City = false →
      hasValue intent.Date = true →
      jsParseDate (intent.Date.getD "") = some ymd →
      (DialogUmbrellaIntent svc intent session).isTell = true := by
  intro svc intent session c ymd hcity hC hD _hparse
  have h2 : DialogUmbrellaIntent svc intent session =
      handleDateDialogRequest svc intent session := by
    simp [DialogUmbrellaIntent, hC, hD]
  rcases hv : intent.Date with _ | v
  · rw [hv] at hD; simp [hasValue] at hD
  · have hd := getDate_of_hasValue intent v hv hD
    rw [h2]
    unfold handleDateDialogRequest
    rw [hd, hcity]
    exact getFinalTide_isTell svc c (dateResultOf v) session

/-- C4 witness: session already stores "Seattle", the turn supplies the
parseable date "2015-06-20", and the directive is terminal. -/
theorem stored_city_valid_date_terminal_witness :
    (DialogUmbrellaIntent (Except.error ()) ⟨none, some "2015-06-20", none⟩
      ⟨some "Seattle", none⟩).isTell = true :=
  stored_city_valid_date_terminal (Except.error ()) ⟨none, some "2015-06-20", none⟩
    ⟨some "Seattle", none⟩ "Seattle" (2015, 6, 20) rfl (by decide) (by decide) (by decide)

/-- C1 counterexample: a dialog turn whose City slot carries the value
"Seattle" while the lowercase location slot (the one the resolver actually
reads) is absent, with a date already carried in the session.  Exactly one
of the two (the city) is unresolved, yet the turn throws a TypeError
instead of returning a directive that prompts for the city. -/
theorem dialog_prompt_invariant_cex :
    DialogUmbrellaIntent (Except.error ()) ⟨some "Seattle", none, none⟩
      ⟨none, some todayDateResult⟩ = Outcome.crash (JsError.typeError "error") := by
  decide

/-- C1 amended: a dialog turn never issues a terminal weather answer
unless both a city (resolved from the location slot this turn, or carried
in the session) and a date (this turn, or carried) are available; when
exactly one is missing the directive prompts for precisely the missing
one — except that a turn whose City slot has a value while the location
slot is absent or empty crashes with a TypeError instead of prompting for
the city. -/
theorem dialog_prompt_invariant_amended :
    ∀ (svc : Except Unit Rat) (intent : Slots) (session : SessionState),
      ((DialogUmbrellaIntent svc intent session).isTell = true →
        (hasValue intent.City = true ∧ hasValue intent.location = true ∧
          session.date.isSome = true) ∨
        (hasValue intent.City = false ∧ hasValue intent.Date = true ∧
          session.city.isSome = true)) ∧
      (hasValue intent.City = true → hasValue intent.location = true →
        session.date = none →
        DialogUmbrellaIntent svc intent session =
          Outcome.ask "For which date?"
            ("For which date would you like tide information for " ++
              intent.location.getD "" ++ "?")
            { session with city := intent.location }) ∧
      (hasValue intent.City = false → hasValue intent.Date = true →
        session.city = none →
        DialogUmbrellaIntent svc intent session =
          Outcome.ask ("For which city would you like tide information for " ++
              (dateResultOf (intent.Date.getD "")).displayDate ++ "?")
            "For which city?"
            { session with date := some (dateResultOf (intent.Date.getD "")) }) ∧
      (hasValue intent.City = false → hasValue intent.Date = false →
        session.city.isSome = true →
        DialogUmbrellaIntent svc intent session =
          Outcome.ask "Please try again saying a day of the week, for example, Saturday. "
            "Please try again saying a day of the week, for example, Saturday. " session) ∧
      (hasValue intent.City = false → hasValue intent.Date = false →
        session.city = none →
        DialogUmbrellaIntent svc intent session =
          handleSupportedCitiesRequest intent session) ∧
      (hasValue intent.City = true → hasValue intent.location = false →
        DialogUmbrellaIntent svc intent session =
          Outcome.crash (JsError.typeError "error")) := by
  intro svc intent session
  refine ⟨fun ht => ?_, fun hC hL hd => ?_, fun hC hD hc => ?_,
    fun hC hD hc => ?_, fun hC hD hc => ?_, fun hC hL => ?_⟩
  · by_cases hC : hasValue intent.City = true
    · left
      refine ⟨hC, ?_⟩
      rw [DialogUmbrellaIntent, if_pos hC] at ht
      unfold handleCityDialogRequest at ht
      rcases hl : getLocationFromIntent intent with _ | v
      · rw [hl] at ht; simp [Outcome.isTell] at ht
      · rw [hl] at ht
        have hLv : hasValue intent.location = true := by
          by_contra hfalse
          simp at hfalse
          rw [(getLocation_none_iff intent).mpr hfalse] at hl
          exact Option.noConfusion hl
        refine ⟨hLv, ?_⟩
        simp only [stringDotError, if_neg Bool.false_ne_true, Bool.false_eq_true,
          if_false] at ht
        rcases hd : session.date with _ | d
        · rw [hd] at ht; simp [Outcome.isTell] at ht
        · simp
    · right
      simp at hC
      rw [DialogUmbrellaIntent, if_neg (by simp [hC])] at ht
      refine ⟨hC, ?_⟩
      by_cases hD : hasValue intent.Date = true
      · rw [if_pos hD] at ht
        refine ⟨hD, ?_⟩
        unfold handleDateDialogRequest at ht
        rcases hgd : getDateFromIntent intent with _ | d
        · rw [hgd] at ht; simp [Outcome.isTell] at ht
        · rw [hgd] at ht
          rcases hc : session.city with _ | c
          · rw [hc] at ht; simp [Outcome.isTell] at ht
          · simp
      · simp at hD
        rw [if_neg (by simp [hD])] at ht
        unfold handleNoSlotDialogRequest at ht
        rcases hc : session.city with _ | c
        · rw [hc] at ht
          unfold handleSupportedCitiesRequest at ht
          simp [Outcome.isTell] at ht
        · rw [hc] at ht; simp [Outcome.isTell] at ht
  · have hl := getLocation_of_hasValue intent hL
    rcases hv : intent.location with _ | v
    · rw [hv] at hL; simp [hasValue] at hL
    · rw [hv] at hl
      simp [DialogUmbrellaIntent, hC, handleCityDialogRequest, hl, stringDotError, hd, hv]
  · rcases hv : intent.Date with _ | v
    · rw [hv] at hD; simp [hasValue] at hD
    · have hgd := getDate_of_hasValue intent v hv hD
      rw [hv] at hD
      simp [DialogUmbrellaIntent, hC, hD, handleDateDialogRequest, hgd, hc, hv]
  · rcases hv : session.city with _ | c
    · rw [hv] at hc; simp at hc
    · simp [DialogUmbrellaIntent, hC, hD, handleNoSlotDialogRequest, hv]
  · simp [DialogUmbrellaIntent, hC, hD, handleNoSlotDialogRequest, hc]
  · have hl := (getLocation_none_iff intent).mpr (by simp [hL])
    simp [DialogUmbrellaIntent, hC, handleCityDialogRequest, hl]

/-- C1 amended witness: concrete turns exercising every clause — a
terminal answer with city and date both available, the date prompt, the
city prompt, both no-slot re-prompts, and the TypeError carve-out. -/
theorem dialog_prompt_invariant_amended_witness :
    ((hasValue (some "Seattle") = true ∧ hasValue (some "Seattle") = true ∧
        (some todayDateResult).isSome = true) ∨
      (hasValue (some "Seattle") = false ∧ hasValue (none : Option String) = true ∧
        (none : Option DateResult).isSome = true)) ∧
    DialogUmbrellaIntent (Except.error ()) ⟨some "Seattle", none, some "Seattle"⟩ ⟨none, none⟩ =
      Outcome.ask "For which date?"
        "For which date would you like tide information for Seattle?"
        ⟨some "Seattle", none⟩ ∧
    DialogUmbrellaIntent (Except.error ()) ⟨none, some "2015-06-20", none⟩ ⟨none, none⟩ =
      Outcome.ask ("For which city would you like tide information for " ++
          (dateResultOf "2015-06-20").displayDate ++ "?")
        "For which city?" ⟨none, some (dateResultOf "2015-06-20")⟩ ∧
    DialogUmbrellaIntent (Except.error ()) ⟨none, none, none⟩ ⟨some "Seattle", none⟩ =
      Outcome.ask "Please try again saying a day of the week, for example, Saturday. "
        "Please try again saying a day of the week, for example, Saturday. "
        ⟨some "Seattle", none⟩ ∧
    DialogUmbrellaIntent (Except.error ()) ⟨none, none, none⟩ ⟨none, none⟩ =
      handleSupportedCitiesRequest ⟨none, none, none⟩ ⟨none, none⟩ ∧
    DialogUmbrellaIntent (Except.error ()) ⟨some "Seattle", none, none⟩ ⟨none, none⟩ =
      Outcome.crash (JsError.typeError "error") :=
  ⟨(dialog_prompt_invariant_amended (Except.error ())
      ⟨some "Seattle", none, some "Seattle"⟩ ⟨none, some todayDateResult⟩).1 (by decide),
   (dialog_prompt_invariant_amended (Except.error ())
      ⟨some "Seattle", none, some "Seattle"⟩ ⟨none, none⟩).2.1 (by decide) (by decide) rfl,
   (dialog_prompt_invariant_amended (Except.error ())
      ⟨none, some "2015-06-20", none⟩ ⟨none, none⟩).2.2.1 (by decide) (by decide) rfl,
   (dialog_prompt_invariant_amended (Except.error ())
      ⟨none, none, none⟩ ⟨some "Seattle", none⟩).2.2.2.1 (by decide) (by decide) (by decide),
   (dialog_prompt_invariant_amended (Except.error ())
      ⟨none, none, none⟩ ⟨none, none⟩).2.2.2.2.1 (by decide) (by decide) rfl,
   (dialog_prompt_invariant_amended (Except.error ())
      ⟨some "Seattle", none, none⟩ ⟨none, none⟩).2.2.2.2.2 (by decide) (by decide)⟩

/-- C3 counterexample: City and Date slots both absent, but the session
already stores a city.  The claim requires a re-prompt for a city; the turn
instead re-prompts for a date (a day of the week) and is not the
supported-cities city prompt — though the session is indeed unchanged. -/
theorem no_slot_city_reprompt_cex :
    DialogUmbrellaIntent (Except.error ()) ⟨none, none, none⟩ ⟨some "Seattle", none⟩ =
      Outcome.ask "Please try again saying a day of the week, for example, Saturday. "
        "Please try again saying a day of the week, for example, Saturday. "
        ⟨some "Seattle", none⟩ ∧
    (DialogUmbrellaIntent (Except.error ()) ⟨none, none, none⟩ ⟨some "Seattle", none⟩ ==
      handleSupportedCitiesRequest ⟨none, none, none⟩ ⟨some "Seattle", none⟩) = false := by
  exact ⟨by decide, by decide⟩

/-- C3 amended: when both the City and the Date slot are absent or empty,
the turn leaves the session untouched and re-prompts — for a city when no
city is stored in the session, and for a date (a day of the week) when the
session already holds a city. -/
theorem no_slot_dialog_amended :
    ∀ (svc : Except Unit Rat) (intent : Slots) (session : SessionState),
      hasValue intent.City = false → hasValue intent.Date = false →
      Outcome.sessionOf (DialogUmbrellaIntent svc intent session) = some session ∧
      (session.city = none →
        DialogUmbrellaIntent svc intent session =
          handleSupportedCitiesRequest intent session) ∧
      (∀ c, session.city = some c →
        DialogUmbrellaIntent svc intent session =
          Outcome.ask "Please try again saying a day of the week, for example, Saturday. "
            "Please try again saying a day of the week, for example, Saturday. " session) := by
  intro svc intent session hC hD
  have hdisp : DialogUmbrellaIntent svc intent session =
      handleNoSlotDialogRequest intent session := by
    simp [DialogUmbrellaIntent, hC, hD]
  refine ⟨?_, fun hc => ?_, fun c hc => ?_⟩
  · rw [hdisp]
    unfold handleNoSlotDialogRequest
    rcases hc : session.city with _ | c
    · rfl
    · rfl
  · rw [hdisp]; unfold handleNoSlotDialogRequest; rw [hc]
  · rw [hdisp]; unfold handleNoSlotDialogRequest; rw [hc]

/-- C3 amended witness: with an empty session the no-slot turn is the
supported-cities city re-prompt; with a stored city it is the date
re-prompt; in both cases the session rides through unchanged. -/
theorem no_slot_dialog_amended_witness :
    Outcome.sessionOf (DialogUmbrellaIntent (Except.error ()) ⟨none, none, none⟩
        ⟨none, none⟩) = some ⟨none, none⟩ ∧
    DialogUmbrellaIntent (Except.error ()) ⟨none, none, none⟩ ⟨none, none⟩ =
      handleSupportedCitiesRequest ⟨none, none, none⟩ ⟨none, none⟩ ∧
    DialogUmbrellaIntent (Except.error ()) ⟨none, none, none⟩ ⟨some "Seattle", none⟩ =
      Outcome.ask "Please try again saying a day of the week, for example, Saturday. "
        "Please try again saying a day of the week, for example, Saturday. "
        ⟨some "Seattle", none⟩ :=
  ⟨(no_slot_dialog_amended (Except.error ()) ⟨none, none, none⟩ ⟨none, none⟩
      (by decide) (by decide)).1,
   (no_slot_dialog_amended (Except.error ()) ⟨none, none, none⟩ ⟨none, none⟩
      (by decide) (by decide)).2.1 rfl,
   (no_slot_dialog_amended (Except.error ()) ⟨none, none, none⟩ ⟨some "Seattle", none⟩
      (by decide) (by decide)).2.2 "Seattle" rfl⟩

/-- C5 evidence: a one-shot turn with location slot value "Nowhereville".
The resolver returns the raw string, whose error property is undefined and
falsy, so the handler never detects a resolution failure: instead of the
claimed non-terminal re-prompt naming "Nowhereville", it proceeds to the
final request and (here, with the service reporting a 0.6 rain
probability) tells the umbrella decision as a terminal directive. -/
theorem oneshot_unresolved_location_proceeds :
    handleOneshotUmbrellaRequest (Except.ok (3/5)) ⟨none, none, some "Nowhereville"⟩
        ⟨none, none⟩ =
      Outcome.tell "Take an umbrella" ⟨none, none⟩ ∧
    handleOneshotUmbrellaRequest (Except.error ()) ⟨none, none, some ""⟩ ⟨none, none⟩ =
      Outcome.crash (JsError.typeError "error") := by
  constructor
  · have hdec : getUmbrellaDecisionResponse (3/5) = "Take an umbrella" := by
      rw [getUmbrellaDecisionResponse, if_pos (by norm_num)]
    calc handleOneshotUmbrellaRequest (Except.ok (3/5)) ⟨none, none, some "Nowhereville"⟩
          ⟨none, none⟩ =
        Outcome.tell (getUmbrellaDecisionResponse (3/5)) ⟨none, none⟩ := rfl
      _ = Outcome.tell "Take an umbrella" ⟨none, none⟩ := by rw [hdec]
  · decide

/-- C7 evidence: the Date slot carries the unparseable string "notadate".
`new Date` yields an Invalid Date — a truthy object — so `getDateFromIntent`
still returns a record (its query fragment is the NaN string) and the
dialog date branch, far from re-prompting for a day-of-week date, stores
the bogus date in the session and prompts for a city. -/
theorem unparseable_date_no_reprompt :
    jsParseDate "notadate" = none ∧
    getDateFromIntent ⟨none, some "notadate", none⟩ =
      some ⟨"Invalid Date", "begin_date=NaNNaNNaN&range=24"⟩ ∧
    DialogUmbrellaIntent (Except.error ()) ⟨none, some "notadate", none⟩ ⟨none, none⟩ =
      Outcome.ask "For which city would you like tide information for Invalid Date?"
        "For which city?"
        ⟨none, some ⟨"Invalid Date", "begin_date=NaNNaNNaN&range=24"⟩⟩ := by
  exact ⟨by decide, by decide, by decide⟩
